import Mathlib

/-!
Verification development for the usdb_syncer song resource synchronization
pipeline (src/usdb_syncer/song_loader.py). The data model and the operations
are shallowly embedded from the Python source; helper functions that live in
modules not present in the sources (utils.py, sync_meta.py) are modelled from
the specification and marked as such in their doc comments.
-/

namespace UsdbSyncer

/-- File path, split into the containing directory and the final name
component, mirroring pathlib.Path usage in song_loader.py (only the
directory and the name are ever inspected). -/
structure FPath where
  dir : String
  name : String
  deriving DecidableEq, Repr

/-- Committed resource file of sync_meta.ResourceFile: the remote resource
identifier and the on-disk file name. Modelled from the spec: sync_meta.py is
not in the sources; per the data model a ResourceFile is a resource string
(the comparison key) and a filename on disk. -/
structure ResourceFile where
  resource : String
  fname : String
  deriving DecidableEq, Repr

/-- ResourceFile.new, as used by TempResourceFile.to_resource_file. Modelled
from the spec: created at commit time from the final path and the resource
identifier; it records the resource string and the file name on disk. -/
def ResourceFile.new (path : FPath) (resource : String) : ResourceFile :=
  ⟨resource, path.name⟩

/-- Locations (song_loader.py lines 47-86): final folder, sanitized filename
stem and the scoped temporary directory of one run. -/
structure Locations where
  folder : String
  filename_stem : String
  tempdir : String
  deriving DecidableEq, Repr

/-- Locations.file_path (lines 70-77): path in the final folder; the name is
the given file or the generic stem, optionally with the given extension.
Empty strings model the absent optional arguments of the Python source. -/
def Locations.file_path (l : Locations) (file : String) (ext : String) : FPath :=
  let name := if file = "" then l.filename_stem else file
  let name := if ext = "" then name else name ++ "." ++ ext
  ⟨l.folder, name⟩

/-- Locations.temp_path (lines 79-86): like file_path but in the temporary
download directory. -/
def Locations.temp_path (l : Locations) (file : String) (ext : String) : FPath :=
  let name := if file = "" then l.filename_stem else file
  let name := if ext = "" then name else name ++ "." ++ ext
  ⟨l.tempdir, name⟩

/-- TempResourceFile (lines 89-114): interim resource slot with the path of a
file kept from the old folder, the path of a freshly staged file, and the
resource identifier currently associated. -/
structure TempResourceFile where
  old_path : Option FPath := none
  new_path : Option FPath := none
  resource : Option String := none
  deriving DecidableEq, Repr

/-- TempResourceFile.path (lines 108-109): the staged path if any, else the
kept old path. -/
def TempResourceFile.path (t : TempResourceFile) : Option FPath :=
  match t.new_path with
  | some p => some p
  | none => t.old_path

/-- TempResourceFile.path_and_resource (lines 103-106): the pair of path and
resource when both are present. -/
def TempResourceFile.path_and_resource (t : TempResourceFile) :
    Option (FPath × String) :=
  match t.path, t.resource with
  | some p, some r => some (p, r)
  | _, _ => none

/-- TempResourceFile.to_resource_file (lines 111-114). -/
def TempResourceFile.to_resource_file (t : TempResourceFile) :
    Option ResourceFile :=
  (t.path_and_resource).map fun pr => ResourceFile.new pr.1 pr.2

/-- Seeding of one output slot in Context attrs post init (lines 144-156): a
slot is pre-seeded with the old resource identifier and the old file path
when the prior record has this resource and it is in sync with the current
folder. The in-sync check lives in sync_meta.py which is not in the sources;
it is passed here as a predicate, modelled from the spec (a resource is
seeded when it is still consistent with the current folder). -/
def seedSlot (old : Option ResourceFile) (insync : ResourceFile → Bool)
    (loc : Locations) : TempResourceFile :=
  match old with
  | none => {}
  | some o =>
      if insync o then
        { resource := some o.resource, old_path := some (loc.file_path o.fname "") }
      else {}

/-- Candidate enumeration Context.all_video_resources (lines 177-180): the
metadata-declared video URL, then every comment video in order. -/
def all_video_resources (meta_video : Option String)
    (comment_videos : List String) : List String :=
  (match meta_video with | some v => [v] | none => []) ++ comment_videos

/-- Candidate enumeration Context.all_audio_resources (lines 170-175): the
metadata-declared audio URL when present, followed unconditionally by the
video candidate sequence. -/
def all_audio_resources (meta_audio meta_video : Option String)
    (comment_videos : List String) : List String :=
  (match meta_audio with | some a => [a] | none => []) ++
    all_video_resources meta_video comment_videos

/-- Context.cover_url (lines 182-192): the embedded cover URL when present,
else the fallback small cover URL of the remote service. -/
def cover_url (meta_cover details_cover : Option String) : Option String :=
  match meta_cover with
  | some c => some c
  | none => details_cover

/-- Context.background_url (lines 194-199): only the embedded background URL;
there is no fallback. -/
def background_url (meta_background : Option String) : Option String :=
  meta_background

/-- Candidate loop shared by audio and video download (lines 295-309 and
318-332): walk the candidates; stop without a fetch if one equals the seeded
resource; otherwise fetch, and on success record the staged path and the new
resource. Returns the resulting slot and the number of fetch calls made. -/
def dlLoop (fetch : String → Option String) (loc : Locations) :
    TempResourceFile → List String → TempResourceFile × Nat
  | slot, [] => (slot, 0)
  | slot, c :: cs =>
      if slot.resource = some c then (slot, 0)
      else
        match fetch c with
        | some ext =>
            ({ slot with resource := some c, new_path := some (loc.temp_path "" ext) }, 1)
        | none =>
            let r := dlLoop fetch loc slot cs
            (r.1, r.2 + 1)

/-- maybe_download_audio and maybe_download_video (lines 292-334): skip when
the kind is disabled (for video this flag also covers the audio-only mark),
else walk at most 10 candidates. On total failure the slot is left as seeded. -/
def maybe_download_av (enabled : Bool) (fetch : String → Option String)
    (loc : Locations) (slot : TempResourceFile) (cands : List String) :
    TempResourceFile × Nat :=
  if enabled then dlLoop fetch loc slot (cands.take 10) else (slot, 0)

/-- maybe_download_cover (lines 337-359). The third component records whether
the keeping-last-resource message was emitted on failure; for the cover it is
governed by the cover slot itself (line 358). -/
def maybe_download_cover (enabled : Bool) (url : Option String)
    (fetchImg : String → Option FPath) (slot : TempResourceFile) :
    TempResourceFile × Nat × Bool :=
  if enabled then
    match url with
    | none => (slot, 0, false)
    | some u =>
        if slot.resource = some u then (slot, 0, false)
        else
          match fetchImg u with
          | some p => ({ slot with resource := some u, new_path := some p }, 1, false)
          | none => (slot, 1, slot.resource.isSome)
  else (slot, 0, false)

/-- maybe_download_background (lines 362-386). The third component records
whether the keeping-last-resource message was emitted on failure; in the
source (line 385) it is governed by the resource of the COVER slot, which is
passed in here unchanged. -/
def maybe_download_background (enabled wanted : Bool) (url : Option String)
    (fetchImg : String → Option FPath) (cover slot : TempResourceFile) :
    TempResourceFile × Nat × Bool :=
  if enabled then
    if wanted then
      match url with
      | none => (slot, 0, false)
      | some u =>
          if slot.resource = some u then (slot, 0, false)
          else
            match fetchImg u with
            | some p => ({ slot with resource := some u, new_path := some p }, 1, false)
            | none => (slot, 1, cover.resource.isSome)
    else (slot, 0, false)
  else (slot, 0, false)

/-- maybe_write_txt (lines 389-396): when txt output is enabled, the lyrics
file is always regenerated into the temporary directory and its resource set
to the USDB URL of the song. -/
def maybe_write_txt (enabled : Bool) (loc : Locations) (usdb_url : String)
    (slot : TempResourceFile) : TempResourceFile :=
  if enabled then
    { slot with new_path := some (loc.temp_path "" "txt"), resource := some usdb_url }
  else slot

/-- Format choice of the tag-writing stage. -/
inductive TagFormat
  | m4a
  | mp3
  | ogg
  deriving DecidableEq, Repr

/-- maybe_write_audio_tags (lines 410-428): returns which format-specific
writer runs, if any. The source unpacks path and resource from
path_and_resource and then matches on path_resource[1], which is the
RESOURCE string, against the three literal extension strings. -/
def audio_tag_writer (audio_options : Bool) (audio : TempResourceFile) :
    Option TagFormat :=
  if audio_options then
    match audio.path_and_resource with
    | none => none
    | some pr =>
        if pr.2 = ".m4a" then some TagFormat.m4a
        else if pr.2 = ".mp3" then some TagFormat.mp3
        else if pr.2 = ".ogg" then some TagFormat.ogg
        else none
  else none

/-- The five committed resource files of a sync record. -/
structure RecordFiles where
  txt : Option ResourceFile
  audio : Option ResourceFile
  video : Option ResourceFile
  cover : Option ResourceFile
  background : Option ResourceFile
  deriving DecidableEq, Repr

/-- The five resource identifiers of a record, in slot order. -/
def RecordFiles.identifiers (r : RecordFiles) : List (Option String) :=
  [r.txt, r.audio, r.video, r.cover, r.background].map
    (Option.map ResourceFile.resource)

/-- Per-run configuration and remote world: option flags, metadata-derived
candidate sources, and the external fetchers (resource_dl collaborators).
Holding the fetchers fixed across two runs expresses unchanged remote
resources. -/
structure RunCfg where
  audio_enabled : Bool
  video_enabled : Bool
  cover_enabled : Bool
  bg_enabled : Bool
  bg_wanted : Bool
  txt_enabled : Bool
  meta_audio : Option String
  meta_video : Option String
  comment_videos : List String
  meta_cover : Option String
  details_cover : Option String
  meta_background : Option String
  fetch_audio : String → Option String
  fetch_video : String → Option String
  fetch_cover : String → Option FPath
  fetch_bg : String → Option FPath
  usdb_url : String

/-- Audio candidates of a run (Context.all_audio_resources). -/
def audio_cands (cfg : RunCfg) : List String :=
  all_audio_resources cfg.meta_audio cfg.meta_video cfg.comment_videos

/-- Video candidates of a run (Context.all_video_resources). -/
def video_cands (cfg : RunCfg) : List String :=
  all_video_resources cfg.meta_video cfg.comment_videos

/-- Slot seeding over an optional prior record (Context attrs post init runs
only when the song has a sync record; without one every slot starts empty). -/
def priorSeed (prior : Option RecordFiles)
    (sel : RecordFiles → Option ResourceFile) (insync : ResourceFile → Bool)
    (loc : Locations) : TempResourceFile :=
  match prior with
  | some p => seedSlot (sel p) insync loc
  | none => {}

/-- One pipeline run at the resource level (run_inner lines 261-281 without
the file moves): seed the four media slots from the prior record, run the
four download stages in source order, regenerate the txt, and convert the
five slots to the committed resource files. Also returns the total number of
resource fetch calls performed. -/
def runPipelineFiles (cfg : RunCfg) (loc : Locations)
    (insync : ResourceFile → Bool) (prior : Option RecordFiles) :
    RecordFiles × Nat :=
  let sA := priorSeed prior (fun p => p.audio) insync loc
  let sV := priorSeed prior (fun p => p.video) insync loc
  let sC := priorSeed prior (fun p => p.cover) insync loc
  let sB := priorSeed prior (fun p => p.background) insync loc
  let ra := maybe_download_av cfg.audio_enabled cfg.fetch_audio loc sA (audio_cands cfg)
  let rv := maybe_download_av cfg.video_enabled cfg.fetch_video loc sV (video_cands cfg)
  let rc := maybe_download_cover cfg.cover_enabled
    (cover_url cfg.meta_cover cfg.details_cover) cfg.fetch_cover sC
  let rb := maybe_download_background cfg.bg_enabled cfg.bg_wanted
    (background_url cfg.meta_background) cfg.fetch_bg rc.1 sB
  let t := maybe_write_txt cfg.txt_enabled loc cfg.usdb_url {}
  (⟨t.to_resource_file, ra.1.to_resource_file, rv.1.to_resource_file,
    rc.1.to_resource_file, rb.1.to_resource_file⟩,
   ra.2 + rv.2 + rc.2.1 + rb.2.1)

/-- Second run of the pipeline, seeded from the record committed by the first
run with all local files in sync (unchanged on disk). -/
def secondRun (cfg : RunCfg) (loc : Locations) (prior : Option RecordFiles) :
    RecordFiles × Nat :=
  runPipelineFiles cfg loc (fun _ => true)
    (some (runPipelineFiles cfg loc (fun _ => true) prior).1)

/-- Well-formedness of a slot as produced by seeding and the download stages:
whenever a resource identifier is held, a backing path is held too. -/
def slotWF (t : TempResourceFile) : Prop :=
  t.resource.isSome → t.path.isSome

/-- Per-slot condition under which the second run makes no fetch call for an
audio or video slot: the kind is disabled, or there are no candidates, or the
committed resource of the first run is the first candidate. -/
def avZero (enabled : Bool) (cands : List String)
    (committed : Option ResourceFile) : Prop :=
  enabled = true → cands = [] ∨
    ∃ rf, committed = some rf ∧ cands.head? = some rf.resource

/-- Per-slot condition under which the second run makes no fetch call for the
cover slot: disabled, or no URL, or the committed resource is the URL. -/
def imgZero (enabled : Bool) (url : Option String)
    (committed : Option ResourceFile) : Prop :=
  enabled = true → url = none ∨
    ∃ rf, committed = some rf ∧ url = some rf.resource

/-- Per-slot condition under which the second run makes no fetch call for the
background slot. -/
def bgZero (enabled wanted : Bool) (url : Option String)
    (committed : Option ResourceFile) : Prop :=
  enabled = true → wanted = true → url = none ∨
    ∃ rf, committed = some rf ∧ url = some rf.resource

/-- All four media slots of a run satisfy their no-refetch condition. -/
def allFirstCandidate (cfg : RunCfg) (r : RecordFiles) : Prop :=
  avZero cfg.audio_enabled (audio_cands cfg) r.audio ∧
  avZero cfg.video_enabled (video_cands cfg) r.video ∧
  imgZero cfg.cover_enabled (cover_url cfg.meta_cover cfg.details_cover) r.cover ∧
  bgZero cfg.bg_enabled cfg.bg_wanted (background_url cfg.meta_background) r.background

/-! Orchestrator state machine (SongLoader.run, lines 234-259, and run_inner,
lines 261-281), embedded as a trace-producing total function. -/

/-- Notification bus events posted by the loader. -/
inductive Ev
  | songChanged
  | songDeleted
  | downloadFinished
  deriving DecidableEq, Repr

/-- Library store operations performed inside the transaction. -/
inductive DbOp
  | upsertSong
  | deleteSong
  deriving DecidableEq, Repr

/-- File operations under the song folder. -/
inductive FileOp
  | create (p : FPath)
  | modify (p : FPath)
  | trashFile (p : FPath)
  deriving DecidableEq, Repr

/-- Outcome of the metadata fetch in get_usdb_data (lines 202-209), which
runs before any file operation. -/
inductive FetchResult
  | ok
  | notFound
  | loginRequired
  deriving DecidableEq, Repr

/-- Errors escaping run_inner, caught in run: UsdbLoginError,
UsdbNotFoundError, and the broad Exception catch. -/
inductive RunErr
  | login
  | notFound
  | unexpected
  deriving DecidableEq, Repr

/-- Terminal status of a run. -/
inductive Terminal
  | done
  | failed
  | deleted
  deriving DecidableEq, Repr

/-- Observable trace of one run: events posted, file operations under the
song folder, and library store operations. -/
structure RunTrace where
  events : List Ev
  fileOps : List FileOp
  dbOps : List DbOp
  deriving DecidableEq, Repr

/-- run_inner (lines 261-281): posts the Downloading SongChanged, then builds
the context; the metadata fetch happens inside Context.new before any
download or commit helper touches a file, so the notFound and login branches
carry no file operations. On the ok branch the helpers perform the file
operations bodyOps and may end in an unexpected error. -/
def run_inner_trace (fr : FetchResult) (bodyOps : List FileOp)
    (bodyFails : Bool) : List Ev × List FileOp × Except RunErr Unit :=
  match fr with
  | FetchResult.notFound => ([Ev.songChanged], [], Except.error RunErr.notFound)
  | FetchResult.loginRequired => ([Ev.songChanged], [], Except.error RunErr.login)
  | FetchResult.ok =>
      if bodyFails then ([Ev.songChanged], bodyOps, Except.error RunErr.unexpected)
      else ([Ev.songChanged], bodyOps, Except.ok ())

/-- SongLoader.run (lines 234-259): every branch of the exception handling
ends by posting the terminal change event (SongDeleted on the deletion path,
SongChanged otherwise) followed by DownloadFinished; the deletion path
deletes the song record and the success path upserts the updated song. -/
def run_trace (fr : FetchResult) (bodyOps : List FileOp) (bodyFails : Bool) :
    RunTrace × Terminal :=
  match run_inner_trace fr bodyOps bodyFails with
  | (evs, ops, Except.error RunErr.login) =>
      (⟨evs ++ [Ev.songChanged, Ev.downloadFinished], ops, []⟩, Terminal.failed)
  | (evs, ops, Except.error RunErr.notFound) =>
      (⟨evs ++ [Ev.songDeleted, Ev.downloadFinished], ops, [DbOp.deleteSong]⟩,
       Terminal.deleted)
  | (evs, ops, Except.error RunErr.unexpected) =>
      (⟨evs ++ [Ev.songChanged, Ev.downloadFinished], ops, []⟩, Terminal.failed)
  | (evs, ops, Except.ok _) =>
      (⟨evs ++ [Ev.songChanged, Ev.downloadFinished], ops, [DbOp.upsertSong]⟩,
       Terminal.done)

/-- The terminal change event corresponding to a terminal status. -/
def terminalChange : Terminal → Ev
  | Terminal.deleted => Ev.songDeleted
  | _ => Ev.songChanged

/-! Sync record identity (write_sync_meta, lines 582-598, together with the
minting in Context.new, lines 158-168). -/

/-- The part of sync_meta.SyncMeta relevant to record identity. Modelled from
the spec: sync_meta.py is not in the sources; the record carries a stable
record id and a pinned flag. -/
structure SyncMetaCore where
  sync_meta_id : Nat
  pinned : Bool
  deriving DecidableEq, Repr

/-- SyncMeta.new. Modelled from the spec: a fresh record is minted with a
newly generated stable id; the pinned flag starts unset. -/
def SyncMetaCore.new (fresh : Nat) : SyncMetaCore :=
  ⟨fresh, false⟩

/-- Context.new (lines 158-168): when the song has no prior sync record, a
fresh one is minted before the run body. -/
def context_new_sync_meta (prior : Option SyncMetaCore) (fresh : Nat) :
    Option SyncMetaCore :=
  match prior with
  | some m => some m
  | none => some (SyncMetaCore.new fresh)

/-- write_sync_meta (lines 582-598): the new record reuses the id of the
record held by the context if one exists (else mints fresh2) and carries its
pinned flag (else false). -/
def write_sync_meta (ctx_meta : Option SyncMetaCore) (fresh2 : Nat) :
    SyncMetaCore :=
  match ctx_meta with
  | some m => ⟨m.sync_meta_id, m.pinned⟩
  | none => ⟨fresh2, false⟩

/-- Record identity over a whole run: Context.new possibly mints, then
write_sync_meta replaces the record. -/
def pipeline_sync_meta (prior : Option SyncMetaCore) (fresh1 fresh2 : Nat) :
    SyncMetaCore :=
  write_sync_meta (context_new_sync_meta prior fresh1) fresh2

/-! Commit stage on an explicit file system (cleanup_exisiting_resource,
lines 535-558; ensure_correct_folder_name, lines 561-568; persist_tempfiles,
lines 571-579). The file system maps paths to file identities; the trash is
the list of file identities moved to the recoverable holding area. -/

/-- File system with a reversible trash. -/
structure FsT where
  fs : FPath → Option Nat
  trash : List Nat

/-- The trash facility send2trash: move the file at the path to the trash; a
missing path is a no-op (per the trash facility contract). -/
def FsT.send2trash (st : FsT) (p : FPath) : FsT :=
  match st.fs p with
  | some i => ⟨fun q => if q = p then none else st.fs q, st.trash ++ [i]⟩
  | none => st

/-- Path.rename on a file: the destination takes the content of the source,
the source disappears. -/
def FsT.renameFile (st : FsT) (src dst : FPath) : FsT :=
  ⟨fun q => if q = dst then st.fs src
            else if q = src then none else st.fs q, st.trash⟩

/-- Directory rename: every file in the source directory moves to the
destination directory under its own name. -/
def FsT.renameDir (st : FsT) (src dst : String) : FsT :=
  ⟨fun q => if q.dir = dst then st.fs ⟨src, q.name⟩
            else if q.dir = src then none else st.fs q, st.trash⟩

/-- utils.resource_file_ending. Modelled from the spec: utils.py is not in
the sources; it yields the resource extension of a filename, used to build
the canonical name as the stem plus the resource extension. -/
def resource_file_ending (fname : String) : String :=
  match (fname.splitOn ".").reverse with
  | ext :: _ :: _ => ext
  | _ => ""

/-- One slot of cleanup_exisiting_resource (lines 535-558): when the prior
record holds this resource, (a) a slot not carried forward has its stray file
trashed if present, (b) a slot with a freshly staged file has its old file
trashed, (c) a kept file with a non-canonical name is renamed in place. -/
def cleanup_slot (loc : Locations) (old : Option ResourceFile)
    (out : TempResourceFile) (st : FsT) : TempResourceFile × FsT :=
  match old with
  | none => (out, st)
  | some o =>
      match out.old_path with
      | none =>
          let p := loc.file_path o.fname ""
          if (st.fs p).isSome then (out, st.send2trash p) else (out, st)
      | some op =>
          if out.new_path.isSome then (out, st.send2trash op)
          else
            let canon := loc.file_path "" (resource_file_ending o.fname)
            if op ≠ canon then
              ({ out with old_path := some canon }, st.renameFile op canon)
            else (out, st)

/-- ensure_correct_folder_name (lines 561-568) acting on the file system: the
naming decision and the freshly allocated unique directory are computed by
utils helpers not in the sources; they enter here as the needRename flag and
the newFolder target (their semantics are settled separately over the
structural name model below). -/
def ensure_folder_fs (loc : Locations) (needRename : Bool) (newFolder : String)
    (st : FsT) : Locations × FsT :=
  if needRename then
    ({ loc with folder := newFolder }, st.renameDir loc.folder newFolder)
  else (loc, st)

/-- One slot of persist_tempfiles (lines 571-579): a staged file moves into
the final folder under its own name; an occupant of that name is trashed
first. -/
def persist_slot (loc : Locations) (out : TempResourceFile) (st : FsT) :
    TempResourceFile × FsT :=
  match out.new_path with
  | none => (out, st)
  | some np =>
      let target := loc.file_path np.name ""
      let st2 := if (st.fs target).isSome then st.send2trash target else st
      ({ out with new_path := some target }, st2.renameFile np target)

/-- The commit stage for one resource slot, in source order: cleanup, folder
naming, persist. -/
def commit_slot (loc : Locations) (old : Option ResourceFile)
    (out : TempResourceFile) (needRename : Bool) (newFolder : String)
    (st : FsT) : Locations × TempResourceFile × FsT :=
  let c := cleanup_slot loc old out st
  let e := ensure_folder_fs loc needRename newFolder c.2
  let p := persist_slot e.1 c.1 e.2
  (e.1, p.1, p.2)

/-! Folder naming model (Locations.new, lines 55-64, and
ensure_correct_folder_name, lines 561-568). The utils helpers
is_name_maybe_with_suffix, next_unique_directory and sanitize_filename are
not in the sources; they are modelled from the spec over a structural name
type: a folder name is a stem optionally followed by a numeric
disambiguation suffix. -/

/-- Folder name: sanitized stem, optionally with a numeric suffix. -/
structure DirName where
  stem : String
  suffix : Option Nat
  deriving DecidableEq, Repr

/-- utils.is_name_maybe_with_suffix. Modelled from the spec: a name matches a
stem when it equals the stem optionally followed by a numeric suffix. -/
def is_name_maybe_with_suffix (n : DirName) (stem : String) : Bool :=
  n.stem == stem

/-- Numeric suffixes already taken for a stem. -/
def stemSuffixes (taken : List DirName) (stem : String) : List Nat :=
  taken.filterMap fun n => if n.stem = stem then n.suffix else none

/-- Largest element of a list of naturals. -/
def natMax (l : List Nat) : Nat :=
  l.foldr max 0

/-- Search for the first free numeric suffix from k upwards. -/
def nextFree (taken : List DirName) (stem : String) : Nat → Nat → DirName
  | 0, k => ⟨stem, some k⟩
  | fuel + 1, k =>
      if (⟨stem, some k⟩ : DirName) ∈ taken then nextFree taken stem fuel (k + 1)
      else ⟨stem, some k⟩

/-- utils.next_unique_directory. Modelled from the spec: the stem itself when
free, else the stem with the first free numeric suffix counting from 2. -/
def next_unique_directory (taken : List DirName) (stem : String) : DirName :=
  if (⟨stem, none⟩ : DirName) ∈ taken then
    nextFree taken stem (natMax (stemSuffixes taken stem) + 1) 2
  else ⟨stem, none⟩

/-- ensure_correct_folder_name (lines 561-568) at the naming level: keep the
folder name when it already matches the stem, else rename to the next unique
directory for the stem. -/
def ensure_correct_folder_name (taken : List DirName) (folderName : DirName)
    (stem : String) : DirName :=
  if is_name_maybe_with_suffix folderName stem then folderName
  else next_unique_directory taken stem

/-- Locations.new (lines 55-64) at the naming level: with a prior sync record
the folder is the recorded one; otherwise a fresh unique directory named
after the sanitized artist-title stem is allocated. -/
def locations_new_folder (taken : List DirName) (sanitize : String → String)
    (artist_title : String) (priorFolder : Option DirName) : DirName :=
  match priorFolder with
  | some f => f
  | none => next_unique_directory taken (sanitize artist_title)

/-! Concrete instances used by counterexamples and witnesses. -/

/-- Concrete locations for a song with stem Song. -/
def locW : Locations :=
  ⟨"library/Song", "Song", "tmpdir"⟩

/-- Audio slot staged at an mp3 file whose resource is a URL. -/
def audioSlotW : TempResourceFile :=
  { new_path := some ⟨"tmpdir", "Song.mp3"⟩,
    resource := some "usdb.example/audio" }

/-- Background slot seeded with a previous resource. -/
def bgPrevW : TempResourceFile :=
  { old_path := some ⟨"library/Song", "SongBG.jpg"⟩,
    resource := some "bg-old" }

/-- Cover slot seeded with a previous resource. -/
def coverPrevW : TempResourceFile :=
  { old_path := some ⟨"library/Song", "SongCO.jpg"⟩,
    resource := some "cov-old" }

/-- Run configuration whose audio candidates are B then A, where fetching B
fails and fetching A succeeds; all other kinds disabled. -/
def cfgCE : RunCfg where
  audio_enabled := true
  video_enabled := false
  cover_enabled := false
  bg_enabled := false
  bg_wanted := false
  txt_enabled := false
  meta_audio := some "urlB"
  meta_video := some "urlA"
  comment_videos := []
  meta_cover := none
  details_cover := none
  meta_background := none
  fetch_audio := fun s => if s = "urlA" then some "mp3" else none
  fetch_video := fun _ => none
  fetch_cover := fun _ => none
  fetch_bg := fun _ => none
  usdb_url := "usdb.example/123"

/-- Run configuration whose single audio candidate A succeeds; txt enabled;
all other kinds disabled. -/
def cfgW : RunCfg where
  audio_enabled := true
  video_enabled := false
  cover_enabled := false
  bg_enabled := false
  bg_wanted := false
  txt_enabled := true
  meta_audio := some "urlA"
  meta_video := none
  comment_videos := []
  meta_cover := none
  details_cover := none
  meta_background := none
  fetch_audio := fun s => if s = "urlA" then some "mp3" else none
  fetch_video := fun _ => none
  fetch_cover := fun _ => none
  fetch_bg := fun _ => none
  usdb_url := "usdb.example/123"

/-- Prior resource file used by the keep-on-failure witness. -/
def priorW : ResourceFile :=
  ⟨"urlA", "Song.mp3"⟩

/-- Old committed file path of the replace-on-change witness. -/
def pOldW : FPath :=
  ⟨"library/Song", "Song.mp3"⟩

/-- Staged temp file path of the replace-on-change witness. -/
def pTmpW : FPath :=
  ⟨"tmpdir", "Song.mp3"⟩

/-- Initial file system of the replace-on-change witness: the old committed
file (identity 1) and the freshly staged temp file (identity 2). -/
def fsW : FPath → Option Nat :=
  fun q => if q = pOldW then some 1 else if q = pTmpW then some 2 else none

/-- Slot of the replace-on-change witness: seeded old file plus staged new
file for the changed resource. -/
def outW : TempResourceFile :=
  { old_path := some pOldW, new_path := some pTmpW, resource := some "urlB" }

end UsdbSyncer

namespace UsdbSyncer

/-! Theorems. -/

/-- C1: the tag-writing stage does NOT select the writer by the audio file
extension: the source matches path_resource[1], the resource string, against
the literal extension strings, so for a staged mp3 whose resource is a URL
no writer runs at all, although the staged path ends in .mp3. The writer
would run only if the resource string itself were the literal extension. -/
theorem c1_dispatch_on_resource_not_path :
    ("Song.mp3" = "Song" ++ ".mp3"
      ∧ audioSlotW.path = some ⟨"tmpdir", "Song.mp3"⟩
      ∧ audio_tag_writer true audioSlotW = none)
    ∧ audio_tag_writer true
        { new_path := some ⟨"tmpdir", "Song.unrelated"⟩, resource := some ".mp3" }
        = some TagFormat.mp3 := by
  decide

/-- C6: when the metadata fetch reports the song as gone, the run performs no
file operation, deletes the song record, terminates as Deleted, and the
terminal notification is SongDeleted followed by DownloadFinished (the only
other event is the initial Downloading SongChanged posted before the fetch). -/
theorem c6_deletion_short_circuit (bodyOps : List FileOp) (bodyFails : Bool) :
    run_trace FetchResult.notFound bodyOps bodyFails =
      (⟨[Ev.songChanged, Ev.songDeleted, Ev.downloadFinished], [],
        [DbOp.deleteSong]⟩, Terminal.deleted) :=
  rfl

/-- C7 counterexample: with a declared audio URL and a declared video URL,
the audio candidate sequence is NOT the audio URL alone; the video
candidates follow it. -/
theorem c7_counterexample :
    all_audio_resources (some "a") (some "v") [] = ["a", "v"]
    ∧ all_audio_resources (some "a") (some "v") [] ≠ ["a"] := by
  decide

/-- C7 amended: the audio candidate sequence yields the declared audio URL
first when one is present, and in every case (not only when the audio URL is
absent) continues with the whole video candidate sequence. -/
theorem c7_audio_candidates (a : String) (mv : Option String)
    (cs : List String) :
    all_audio_resources (some a) mv cs = a :: all_video_resources mv cs
    ∧ all_audio_resources none mv cs = all_video_resources mv cs :=
  ⟨rfl, rfl⟩

/-- C8: the keeping-last-resource message of the background download failure
path is governed by the COVER slot, not the background slot: with a seeded
background and an empty cover the message is not emitted, and with a seeded
cover and an empty background it is emitted. -/
theorem c8_keep_message_checks_cover_slot :
    (bgPrevW.resource.isSome = true
      ∧ (maybe_download_background true true (some "bg-new") (fun _ => none)
          {} bgPrevW).2.2 = false)
    ∧ ((TempResourceFile.resource {} : Option String) = none
      ∧ (maybe_download_background true true (some "bg-new") (fun _ => none)
          coverPrevW {}).2.2 = true) := by
  decide

/-- C9: for every started run and every outcome, the posted events are the
initial Downloading SongChanged followed by exactly one terminal change
notification (SongDeleted on the deletion path, SongChanged otherwise) and
exactly one DownloadFinished; run_trace is a total function over all error
outcomes of the inner run, so no exception escapes it. -/
theorem c9_one_terminal_event (fr : FetchResult) (bodyOps : List FileOp)
    (bodyFails : Bool) :
    (run_trace fr bodyOps bodyFails).1.events =
      [Ev.songChanged, terminalChange (run_trace fr bodyOps bodyFails).2,
       Ev.downloadFinished]
    ∧ ((run_trace fr bodyOps bodyFails).1.events).count Ev.downloadFinished = 1 := by
  cases fr <;> cases bodyFails <;> exact ⟨rfl, rfl⟩

/-- C10: the record written at the end of a run reuses the stable id and the
pinned flag of the prior record when one exists; only without a prior record
is the id the freshly minted one (from Context.new) and the pinned flag
false. -/
theorem c10_record_identity (prior : Option SyncMetaCore) (fresh1 fresh2 : Nat) :
    (pipeline_sync_meta prior fresh1 fresh2).sync_meta_id =
      (match prior with | some m => m.sync_meta_id | none => fresh1)
    ∧ (pipeline_sync_meta prior fresh1 fresh2).pinned =
      (match prior with | some m => m.pinned | none => false) := by
  cases prior <;> exact ⟨rfl, rfl⟩

/-! Lemmas about the candidate loop. -/

/-- When every fetch fails, the candidate loop leaves the slot exactly as
seeded. -/
theorem dlLoop_all_fail (fetch : String → Option String) (loc : Locations)
    (s : TempResourceFile) (l : List String) (h : ∀ c ∈ l, fetch c = none) :
    (dlLoop fetch loc s l).1 = s := by
  induction l with
  | nil => rfl
  | cons c cs ih =>
      have hc : fetch c = none := h c (by simp)
      by_cases hs : s.resource = some c
      · simp [dlLoop, hs]
      · simp only [dlLoop, if_neg hs, hc]
        exact ih fun d hd => h d (by simp [hd])

/-- Re-running the candidate loop seeded with the resource it has already
settled on changes nothing: the loop stops at that candidate (or never
reaches a successful fetch, all earlier candidates failing as before). -/
theorem dlLoop_stable (fetch : String → Option String) (loc : Locations)
    (l : List String) (s t : TempResourceFile)
    (ht : t.resource = (dlLoop fetch loc s l).1.resource) :
    (dlLoop fetch loc t l).1 = t := by
  induction l generalizing s with
  | nil => rfl
  | cons c cs ih =>
      by_cases hs : s.resource = some c
      · simp only [dlLoop, if_pos hs] at ht
        rw [hs] at ht
        simp [dlLoop, ht]
      · cases hf : fetch c with
        | some ext =>
            simp only [dlLoop, if_neg hs, hf] at ht
            simp [dlLoop, ht]
        | none =>
            simp only [dlLoop, if_neg hs, hf] at ht
            by_cases htc : t.resource = some c
            · simp [dlLoop, htc]
            · simp only [dlLoop, if_neg htc, hf]
              exact ih s ht

/-- The candidate loop makes no fetch call when the first candidate equals
the seeded resource. -/
theorem dlLoop_count_zero (fetch : String → Option String) (loc : Locations)
    (t : TempResourceFile) (c : String) (cs : List String)
    (h : t.resource = some c) :
    (dlLoop fetch loc t (c :: cs)).2 = 0 := by
  simp [dlLoop, h]

/-- The empty slot is well formed. -/
theorem slotWF_empty : slotWF {} := by
  intro h
  simp [TempResourceFile.resource] at h

/-- Seeded slots are well formed. -/
theorem slotWF_seed (old : Option ResourceFile) (insync : ResourceFile → Bool)
    (loc : Locations) : slotWF (seedSlot old insync loc) := by
  cases old with
  | none => exact slotWF_empty
  | some o =>
      by_cases hi : insync o
      · intro _
        simp [seedSlot, hi, TempResourceFile.path]
      · simp only [seedSlot, if_neg hi]
        exact slotWF_empty

/-- The candidate loop preserves well-formedness. -/
theorem slotWF_dlLoop (fetch : String → Option String) (loc : Locations)
    (l : List String) (s : TempResourceFile) (h : slotWF s) :
    slotWF (dlLoop fetch loc s l).1 := by
  induction l with
  | nil => exact h
  | cons c cs ih =>
      by_cases hs : s.resource = some c
      · simpa [dlLoop, hs] using h
      · cases hf : fetch c with
        | some ext =>
            intro _
            simp [dlLoop, if_neg hs, hf, TempResourceFile.path]
        | none =>
            simpa [dlLoop, if_neg hs, hf] using ih

/-- maybe_download_av preserves well-formedness. -/
theorem slotWF_av (e : Bool) (fetch : String → Option String) (loc : Locations)
    (s : TempResourceFile) (cands : List String) (h : slotWF s) :
    slotWF (maybe_download_av e fetch loc s cands).1 := by
  cases e with
  | false => exact h
  | true => exact slotWF_dlLoop fetch loc (cands.take 10) s h

/-- Stability of maybe_download_av under reseeding with its own result. -/
theorem av_stable (e : Bool) (fetch : String → Option String) (loc : Locations)
    (cands : List String) (s t : TempResourceFile)
    (ht : t.resource = (maybe_download_av e fetch loc s cands).1.resource) :
    (maybe_download_av e fetch loc t cands).1 = t := by
  cases e with
  | false => rfl
  | true => exact dlLoop_stable fetch loc (cands.take 10) s t ht

/-- Reseeding from the committed resource file of a well-formed slot
reproduces its resource identifier. -/
theorem seedSlot_resource_of_committed (s : TempResourceFile) (loc : Locations)
    (hwf : slotWF s) :
    (seedSlot s.to_resource_file (fun _ => true) loc).resource = s.resource := by
  cases hr : s.resource with
  | none =>
      simp [TempResourceFile.to_resource_file, TempResourceFile.path_and_resource,
        hr, seedSlot]
  | some r =>
      have hp : s.path.isSome := hwf (by simp [hr])
      cases hpp : s.path with
      | none => simp [hpp] at hp
      | some p =>
          have h1 : s.to_resource_file = some ⟨r, p.name⟩ := by
            simp [TempResourceFile.to_resource_file,
              TempResourceFile.path_and_resource, hpp, hr, ResourceFile.new]
          rw [h1]
          simp [seedSlot, hr]

/-- Reseeding from a committed resource file and committing again preserves
the committed resource identifier. -/
theorem reseed_committed (s : TempResourceFile) (loc : Locations)
    (hwf : slotWF s) :
    ((seedSlot s.to_resource_file (fun _ => true) loc).to_resource_file).map
        ResourceFile.resource
      = (s.to_resource_file).map ResourceFile.resource := by
  cases hr : s.resource with
  | none =>
      simp [TempResourceFile.to_resource_file, TempResourceFile.path_and_resource,
        hr, seedSlot]
  | some r =>
      have hp : s.path.isSome := hwf (by simp [hr])
      cases hpp : s.path with
      | none => simp [hpp] at hp
      | some p =>
          have h1 : s.to_resource_file = some ⟨r, p.name⟩ := by
            simp [TempResourceFile.to_resource_file,
              TempResourceFile.path_and_resource, hpp, hr, ResourceFile.new]
          rw [h1]
          simp [seedSlot, TempResourceFile.to_resource_file,
            TempResourceFile.path_and_resource, TempResourceFile.path,
            ResourceFile.new]

/-- maybe_download_cover preserves well-formedness. -/
theorem slotWF_cover (e : Bool) (url : Option String)
    (fimg : String → Option FPath) (s : TempResourceFile) (h : slotWF s) :
    slotWF (maybe_download_cover e url fimg s).1 := by
  cases e with
  | false => exact h
  | true =>
      cases url with
      | none => exact h
      | some u =>
          by_cases hs : s.resource = some u
          · simpa [maybe_download_cover, hs] using h
          · cases hf : fimg u with
            | some p =>
                intro _
                simp [maybe_download_cover, if_neg hs, hf, TempResourceFile.path]
            | none => simpa [maybe_download_cover, if_neg hs, hf] using h

/-- maybe_download_background preserves well-formedness. -/
theorem slotWF_bg (e w : Bool) (url : Option String)
    (fimg : String → Option FPath) (cov s : TempResourceFile) (h : slotWF s) :
    slotWF (maybe_download_background e w url fimg cov s).1 := by
  cases e with
  | false => exact h
  | true =>
      cases w with
      | false => exact h
      | true =>
          cases url with
          | none => exact h
          | some u =>
              by_cases hs : s.resource = some u
              · simpa [maybe_download_background, hs] using h
              · cases hf : fimg u with
                | some p =>
                    intro _
                    simp [maybe_download_background, if_neg hs, hf,
                      TempResourceFile.path]
                | none =>
                    simpa [maybe_download_background, if_neg hs, hf] using h

/-- Stability of maybe_download_cover under reseeding with its own result. -/
theorem cover_stable (e : Bool) (url : Option String)
    (fimg : String → Option FPath) (s t : TempResourceFile)
    (ht : t.resource = (maybe_download_cover e url fimg s).1.resource) :
    (maybe_download_cover e url fimg t).1 = t := by
  cases e with
  | false => rfl
  | true =>
      cases url with
      | none => rfl
      | some u =>
          by_cases hs : s.resource = some u
          · simp only [maybe_download_cover, if_pos hs, if_true] at ht
            rw [hs] at ht
            simp [maybe_download_cover, ht]
          · cases hf : fimg u with
            | some p =>
                simp only [maybe_download_cover, if_true, if_neg hs, hf] at ht
                simp [maybe_download_cover, ht]
            | none =>
                by_cases htu : t.resource = some u
                · simp [maybe_download_cover, htu]
                · simp [maybe_download_cover, if_neg htu, hf]

/-- Stability of maybe_download_background under reseeding with its own
result; the cover slots passed to the two calls are arbitrary, as they only
govern the failure log line. -/
theorem bg_stable (e w : Bool) (url : Option String)
    (fimg : String → Option FPath) (cov1 cov2 s t : TempResourceFile)
    (ht : t.resource = (maybe_download_background e w url fimg cov1 s).1.resource) :
    (maybe_download_background e w url fimg cov2 t).1 = t := by
  cases e with
  | false => rfl
  | true =>
      cases w with
      | false => rfl
      | true =>
          cases url with
          | none => rfl
          | some u =>
              by_cases hs : s.resource = some u
              · simp only [maybe_download_background, if_pos hs, if_true] at ht
                rw [hs] at ht
                simp [maybe_download_background, ht]
              · cases hf : fimg u with
                | some p =>
                    simp only [maybe_download_background, if_true, if_neg hs, hf] at ht
                    simp [maybe_download_background, ht]
                | none =>
                    by_cases htu : t.resource = some u
                    · simp [maybe_download_background, htu]
                    · simp [maybe_download_background, if_neg htu, hf]

/-- A second audio or video download, seeded from the record committed by a
first run with unchanged candidates and fetch outcomes, commits the same
resource identifier. -/
theorem av_rerun (e : Bool) (fetch : String → Option String) (loc : Locations)
    (cands : List String) (s0 : TempResourceFile) (hwf : slotWF s0) :
    ((maybe_download_av e fetch loc
        (seedSlot ((maybe_download_av e fetch loc s0 cands).1.to_resource_file)
          (fun _ => true) loc) cands).1.to_resource_file).map
        ResourceFile.resource
      = ((maybe_download_av e fetch loc s0 cands).1.to_resource_file).map
        ResourceFile.resource := by
  have hwf1 : slotWF (maybe_download_av e fetch loc s0 cands).1 :=
    slotWF_av e fetch loc s0 cands hwf
  have hres := seedSlot_resource_of_committed
    (maybe_download_av e fetch loc s0 cands).1 loc hwf1
  rw [av_stable e fetch loc cands s0 _ hres]
  exact reseed_committed (maybe_download_av e fetch loc s0 cands).1 loc hwf1

/-- A second cover download, seeded from the committed record, commits the
same resource identifier. -/
theorem cover_rerun (e : Bool) (url : Option String)
    (fimg : String → Option FPath) (loc : Locations) (s0 : TempResourceFile)
    (hwf : slotWF s0) :
    ((maybe_download_cover e url fimg
        (seedSlot ((maybe_download_cover e url fimg s0).1.to_resource_file)
          (fun _ => true) loc)).1.to_resource_file).map ResourceFile.resource
      = ((maybe_download_cover e url fimg s0).1.to_resource_file).map
        ResourceFile.resource := by
  have hwf1 : slotWF (maybe_download_cover e url fimg s0).1 :=
    slotWF_cover e url fimg s0 hwf
  have hres := seedSlot_resource_of_committed
    (maybe_download_cover e url fimg s0).1 loc hwf1
  rw [cover_stable e url fimg s0 _ hres]
  exact reseed_committed (maybe_download_cover e url fimg s0).1 loc hwf1

/-- A second background download, seeded from the committed record, commits
the same resource identifier, whatever the cover slots of the two runs are. -/
theorem bg_rerun (e w : Bool) (url : Option String)
    (fimg : String → Option FPath) (loc : Locations)
    (cov1 cov2 s0 : TempResourceFile) (hwf : slotWF s0) :
    ((maybe_download_background e w url fimg cov2
        (seedSlot ((maybe_download_background e w url fimg cov1 s0).1.to_resource_file)
          (fun _ => true) loc)).1.to_resource_file).map ResourceFile.resource
      = ((maybe_download_background e w url fimg cov1 s0).1.to_resource_file).map
        ResourceFile.resource := by
  have hwf1 : slotWF (maybe_download_background e w url fimg cov1 s0).1 :=
    slotWF_bg e w url fimg cov1 s0 hwf
  have hres := seedSlot_resource_of_committed
    (maybe_download_background e w url fimg cov1 s0).1 loc hwf1
  rw [bg_stable e w url fimg cov1 cov2 s0 _ hres]
  exact reseed_committed (maybe_download_background e w url fimg cov1 s0).1 loc hwf1

/-- Under the first-candidate condition the second audio or video download
makes no fetch call. -/
theorem av_rerun_count (e : Bool) (fetch : String → Option String)
    (loc : Locations) (cands : List String) (s0 : TempResourceFile)
    (hz : avZero e cands ((maybe_download_av e fetch loc s0 cands).1.to_resource_file)) :
    (maybe_download_av e fetch loc
        (seedSlot ((maybe_download_av e fetch loc s0 cands).1.to_resource_file)
          (fun _ => true) loc) cands).2 = 0 := by
  cases e with
  | false => rfl
  | true =>
      rcases hz rfl with hnil | ⟨rf, hc, hh⟩
      · subst hnil
        rfl
      · cases cands with
        | nil => simp at hh
        | cons c cs =>
            have hcr : c = rf.resource := by simpa using hh
            rw [hc]
            have hts : (seedSlot (some rf) (fun _ => true) loc).resource
                = some rf.resource := by simp [seedSlot]
            simp only [maybe_download_av, if_true, List.take_succ_cons]
            exact dlLoop_count_zero fetch loc _ c _ (by rw [hts, hcr])

/-- Under the unchanged-URL condition the second cover download makes no
fetch call. -/
theorem cover_rerun_count (e : Bool) (url : Option String)
    (fimg : String → Option FPath) (loc : Locations) (s0 : TempResourceFile)
    (hz : imgZero e url ((maybe_download_cover e url fimg s0).1.to_resource_file)) :
    (maybe_download_cover e url fimg
        (seedSlot ((maybe_download_cover e url fimg s0).1.to_resource_file)
          (fun _ => true) loc)).2.1 = 0 := by
  cases e with
  | false => rfl
  | true =>
      rcases hz rfl with hnone | ⟨rf, hc, hu⟩
      · subst hnone
        rfl
      · subst hu
        rw [hc]
        simp [maybe_download_cover, seedSlot]

/-- Under the unchanged-URL condition the second background download makes no
fetch call. -/
theorem bg_rerun_count (e w : Bool) (url : Option String)
    (fimg : String → Option FPath) (loc : Locations)
    (cov1 cov2 s0 : TempResourceFile)
    (hz : bgZero e w url
      ((maybe_download_background e w url fimg cov1 s0).1.to_resource_file)) :
    (maybe_download_background e w url fimg cov2
        (seedSlot ((maybe_download_background e w url fimg cov1 s0).1.to_resource_file)
          (fun _ => true) loc)).2.1 = 0 := by
  cases e with
  | false => rfl
  | true =>
      cases w with
      | false => rfl
      | true =>
          rcases hz rfl rfl with hnone | ⟨rf, hc, hu⟩
          · subst hnone
            rfl
          · subst hu
            rw [hc]
            simp [maybe_download_background, seedSlot]

/-- Records with slotwise equal resource identifiers have equal identifier
lists. -/
theorem identifiers_ext (x y : RecordFiles)
    (h1 : x.txt.map ResourceFile.resource = y.txt.map ResourceFile.resource)
    (h2 : x.audio.map ResourceFile.resource = y.audio.map ResourceFile.resource)
    (h3 : x.video.map ResourceFile.resource = y.video.map ResourceFile.resource)
    (h4 : x.cover.map ResourceFile.resource = y.cover.map ResourceFile.resource)
    (h5 : x.background.map ResourceFile.resource
      = y.background.map ResourceFile.resource) :
    x.identifiers = y.identifiers := by
  simp only [RecordFiles.identifiers, List.map_cons, List.map_nil]
  rw [show Option.map ResourceFile.resource x.txt
      = x.txt.map ResourceFile.resource from rfl] at *
  simp [h1, h2, h3, h4, h5]

/-- Seeding from an optional prior record yields a well-formed slot. -/
theorem slotWF_priorSeed (prior : Option RecordFiles)
    (sel : RecordFiles → Option ResourceFile) (insync : ResourceFile → Bool)
    (loc : Locations) : slotWF (priorSeed prior sel insync loc) := by
  cases prior with
  | none => exact slotWF_empty
  | some p => exact slotWF_seed _ _ _

/-- C2 (amended): running the pipeline a second time for the same song with
unchanged candidate identifiers, unchanged fetch outcomes and unchanged
local files commits a record whose five ResourceFile identifiers equal those
of the first run unconditionally; the second run performs zero resource
fetch calls provided each slot committed its first candidate (or had no
candidate or was disabled) — otherwise it may re-attempt, and re-fail,
candidates preceding the retained one, as the counterexample shows. -/
theorem c2_second_run (cfg : RunCfg) (loc : Locations)
    (prior : Option RecordFiles) :
    (secondRun cfg loc prior).1.identifiers
      = (runPipelineFiles cfg loc (fun _ => true) prior).1.identifiers
    ∧ (allFirstCandidate cfg (runPipelineFiles cfg loc (fun _ => true) prior).1
        → (secondRun cfg loc prior).2 = 0) := by
  have hwfA := slotWF_priorSeed prior (fun p => p.audio) (fun _ => true) loc
  have hwfV := slotWF_priorSeed prior (fun p => p.video) (fun _ => true) loc
  have hwfC := slotWF_priorSeed prior (fun p => p.cover) (fun _ => true) loc
  have hwfB := slotWF_priorSeed prior (fun p => p.background) (fun _ => true) loc
  constructor
  · exact identifiers_ext _ _ rfl
      (av_rerun cfg.audio_enabled cfg.fetch_audio loc (audio_cands cfg) _ hwfA)
      (av_rerun cfg.video_enabled cfg.fetch_video loc (video_cands cfg) _ hwfV)
      (cover_rerun cfg.cover_enabled (cover_url cfg.meta_cover cfg.details_cover)
        cfg.fetch_cover loc _ hwfC)
      (bg_rerun cfg.bg_enabled cfg.bg_wanted (background_url cfg.meta_background)
        cfg.fetch_bg loc _ _ _ hwfB)
  · rintro ⟨hA, hV, hC, hB⟩
    have eA := av_rerun_count cfg.audio_enabled cfg.fetch_audio loc
      (audio_cands cfg)
      (priorSeed prior (fun p => p.audio) (fun _ => true) loc) hA
    have eV := av_rerun_count cfg.video_enabled cfg.fetch_video loc
      (video_cands cfg)
      (priorSeed prior (fun p => p.video) (fun _ => true) loc) hV
    have eC := cover_rerun_count cfg.cover_enabled
      (cover_url cfg.meta_cover cfg.details_cover) cfg.fetch_cover loc
      (priorSeed prior (fun p => p.cover) (fun _ => true) loc) hC
    have eB := bg_rerun_count cfg.bg_enabled cfg.bg_wanted
      (background_url cfg.meta_background) cfg.fetch_bg loc
      (maybe_download_cover cfg.cover_enabled
        (cover_url cfg.meta_cover cfg.details_cover) cfg.fetch_cover
        (priorSeed prior (fun p => p.cover) (fun _ => true) loc)).1
      (maybe_download_cover cfg.cover_enabled
        (cover_url cfg.meta_cover cfg.details_cover) cfg.fetch_cover
        (seedSlot ((maybe_download_cover cfg.cover_enabled
            (cover_url cfg.meta_cover cfg.details_cover) cfg.fetch_cover
            (priorSeed prior (fun p => p.cover) (fun _ => true) loc)).1.to_resource_file)
          (fun _ => true) loc)).1
      (priorSeed prior (fun p => p.background) (fun _ => true) loc) hB
    have hsum : (secondRun cfg loc prior).2
        = (maybe_download_av cfg.audio_enabled cfg.fetch_audio loc
            (seedSlot ((maybe_download_av cfg.audio_enabled cfg.fetch_audio loc
              (priorSeed prior (fun p => p.audio) (fun _ => true) loc)
              (audio_cands cfg)).1.to_resource_file)
              (fun _ => true) loc) (audio_cands cfg)).2
          + (maybe_download_av cfg.video_enabled cfg.fetch_video loc
            (seedSlot ((maybe_download_av cfg.video_enabled cfg.fetch_video loc
              (priorSeed prior (fun p => p.video) (fun _ => true) loc)
              (video_cands cfg)).1.to_resource_file)
              (fun _ => true) loc) (video_cands cfg)).2
          + (maybe_download_cover cfg.cover_enabled
            (cover_url cfg.meta_cover cfg.details_cover) cfg.fetch_cover
            (seedSlot ((maybe_download_cover cfg.cover_enabled
                (cover_url cfg.meta_cover cfg.details_cover) cfg.fetch_cover
                (priorSeed prior (fun p => p.cover) (fun _ => true) loc)).1.to_resource_file)
              (fun _ => true) loc)).2.1
          + (maybe_download_background cfg.bg_enabled cfg.bg_wanted
            (background_url cfg.meta_background) cfg.fetch_bg
            (maybe_download_cover cfg.cover_enabled
              (cover_url cfg.meta_cover cfg.details_cover) cfg.fetch_cover
              (seedSlot ((maybe_download_cover cfg.cover_enabled
                  (cover_url cfg.meta_cover cfg.details_cover) cfg.fetch_cover
                  (priorSeed prior (fun p => p.cover) (fun _ => true) loc)).1.to_resource_file)
                (fun _ => true) loc)).1
            (seedSlot ((maybe_download_background cfg.bg_enabled cfg.bg_wanted
                (background_url cfg.meta_background) cfg.fetch_bg
                (maybe_download_cover cfg.cover_enabled
                  (cover_url cfg.meta_cover cfg.details_cover) cfg.fetch_cover
                  (priorSeed prior (fun p => p.cover) (fun _ => true) loc)).1
                (priorSeed prior (fun p => p.background) (fun _ => true) loc)).1.to_resource_file)
              (fun _ => true) loc)).2.1 :=
      rfl
    rw [hsum, eA, eV, eC, eB]

/-- C2 counterexample: with candidates urlB then urlA where urlB fails and
urlA succeeds (unchanged between the runs), the first run commits urlA; the
second run, seeded with urlA and facing the identical candidate list and
fetch outcomes, re-attempts urlB before stopping at urlA — one resource
fetch call, not zero, although the committed identifiers are unchanged. -/
theorem c2_counterexample :
    (secondRun cfgCE locW none).1.identifiers
        = (runPipelineFiles cfgCE locW (fun _ => true) none).1.identifiers
    ∧ (runPipelineFiles cfgCE locW (fun _ => true) none).1.audio
        = some ⟨"urlA", "Song.mp3"⟩
    ∧ (secondRun cfgCE locW none).2 = 1
    ∧ (secondRun cfgCE locW none).2 ≠ 0 := by
  decide

/-- C2 witness: a run whose single audio candidate urlA succeeds satisfies
the first-candidate condition, so the second run makes zero fetch calls and
commits the same identifiers. -/
theorem c2_witness :
    (secondRun cfgW locW none).1.identifiers
        = (runPipelineFiles cfgW locW (fun _ => true) none).1.identifiers
    ∧ (secondRun cfgW locW none).2 = 0 :=
  ⟨(c2_second_run cfgW locW none).1,
   (c2_second_run cfgW locW none).2
     ⟨fun _ => Or.inr ⟨⟨"urlA", "Song.mp3"⟩, by decide, by decide⟩,
      fun h => absurd h (by decide),
      fun h => absurd h (by decide),
      fun h => absurd h (by decide)⟩⟩

/-- C4: for a slot seeded from the prior record, when every candidate fetch
fails the download stage leaves the slot exactly as seeded, and the
committed ResourceFile for the slot carries the prior resource identifier. -/
theorem c4_keep_on_failure (loc : Locations) (prior : ResourceFile)
    (fetch : String → Option String) (cands : List String)
    (hfail : ∀ c, fetch c = none) :
    (maybe_download_av true fetch loc
        (seedSlot (some prior) (fun _ => true) loc) cands).1
      = seedSlot (some prior) (fun _ => true) loc
    ∧ ((maybe_download_av true fetch loc
        (seedSlot (some prior) (fun _ => true) loc) cands).1.to_resource_file).map
        ResourceFile.resource = some prior.resource := by
  have h1 : (maybe_download_av true fetch loc
      (seedSlot (some prior) (fun _ => true) loc) cands).1
      = seedSlot (some prior) (fun _ => true) loc :=
    dlLoop_all_fail fetch loc _ (cands.take 10) fun c _ => hfail c
  refine ⟨h1, ?_⟩
  rw [h1]
  simp [seedSlot, TempResourceFile.to_resource_file,
    TempResourceFile.path_and_resource, TempResourceFile.path, ResourceFile.new]

/-- C4 witness: concrete slot with prior resource urlA, one candidate urlB,
and an always-failing fetcher. -/
theorem c4_witness :
    (maybe_download_av true (fun _ => none) locW
        (seedSlot (some priorW) (fun _ => true) locW) ["urlB"]).1
      = seedSlot (some priorW) (fun _ => true) locW
    ∧ ((maybe_download_av true (fun _ => none) locW
        (seedSlot (some priorW) (fun _ => true) locW) ["urlB"]).1.to_resource_file).map
        ResourceFile.resource = some priorW.resource :=
  c4_keep_on_failure locW priorW (fun _ => none) ["urlB"] fun _ => rfl

/-! Lemmas about unique directory allocation. -/

/-- Every member of a list of naturals is bounded by its maximum. -/
theorem le_natMax_of_mem {l : List Nat} {a : Nat} (h : a ∈ l) : a ≤ natMax l := by
  induction l with
  | nil => cases h
  | cons b bs ih =>
      rcases List.mem_cons.mp h with h1 | h2
      · subst h1
        exact le_max_left _ _
      · exact le_trans (ih h2) (le_max_right _ _)

/-- A numeric suffix taken for a stem is bounded by the maximal taken
suffix. -/
theorem mem_suffix_le (taken : List DirName) (stem : String) (k : Nat)
    (h : (⟨stem, some k⟩ : DirName) ∈ taken) :
    k ≤ natMax (stemSuffixes taken stem) := by
  apply le_natMax_of_mem
  rw [stemSuffixes, List.mem_filterMap]
  exact ⟨⟨stem, some k⟩, h, by simp⟩

/-- The suffix search never changes the stem. -/
theorem nextFree_stem (taken : List DirName) (stem : String) :
    ∀ fuel k, (nextFree taken stem fuel k).stem = stem := by
  intro fuel
  induction fuel with
  | zero => intro k; rfl
  | succ f ih =>
      intro k
      by_cases hm : (⟨stem, some k⟩ : DirName) ∈ taken
      · rw [nextFree, if_pos hm]
        exact ih (k + 1)
      · rw [nextFree, if_neg hm]

/-- With enough fuel the suffix search lands on a free name. -/
theorem nextFree_not_mem (taken : List DirName) (stem : String) :
    ∀ fuel k, natMax (stemSuffixes taken stem) < k + fuel →
      nextFree taken stem fuel k ∉ taken := by
  intro fuel
  induction fuel with
  | zero =>
      intro k h hmem
      exact absurd (mem_suffix_le taken stem k hmem) (by omega)
  | succ f ih =>
      intro k h
      by_cases hm : (⟨stem, some k⟩ : DirName) ∈ taken
      · rw [nextFree, if_pos hm]
        exact ih (k + 1) (by omega)
      · rw [nextFree, if_neg hm]
        exact hm

/-- The allocated directory carries the requested stem and is not taken. -/
theorem next_unique_directory_spec (taken : List DirName) (stem : String) :
    (next_unique_directory taken stem).stem = stem
    ∧ next_unique_directory taken stem ∉ taken := by
  by_cases hm : (⟨stem, none⟩ : DirName) ∈ taken
  · rw [next_unique_directory, if_pos hm]
    exact ⟨nextFree_stem _ _ _ _, nextFree_not_mem _ _ _ 2 (by omega)⟩
  · rw [next_unique_directory, if_neg hm]
    exact ⟨rfl, hm⟩

/-- C5: after a successful run the folder name equals the sanitized current
artist-title stem optionally with a numeric disambiguation suffix, and
folders never collide: a fresh allocation (Locations.new without a prior
record) yields an untaken directory named after the stem, and the commit
stage either keeps a folder already matching the stem or renames to the next
unique directory for the stem, which is again untaken. -/
theorem c5_folder_invariant (taken : List DirName) (folderName : DirName)
    (sanitize : String → String) (artist_title : String) :
    (locations_new_folder taken sanitize artist_title none).stem
        = sanitize artist_title
    ∧ locations_new_folder taken sanitize artist_title none ∉ taken
    ∧ (ensure_correct_folder_name taken folderName (sanitize artist_title)).stem
        = sanitize artist_title
    ∧ (ensure_correct_folder_name taken folderName (sanitize artist_title)
          ≠ folderName →
        ensure_correct_folder_name taken folderName (sanitize artist_title)
          ∉ taken) := by
  obtain ⟨h1, h2⟩ := next_unique_directory_spec taken (sanitize artist_title)
  refine ⟨h1, h2, ?_, ?_⟩
  · rw [ensure_correct_folder_name]
    by_cases hn : is_name_maybe_with_suffix folderName (sanitize artist_title) = true
    · rw [if_pos hn]
      exact beq_iff_eq.mp hn
    · rw [if_neg hn]
      exact h1
  · intro hne
    rw [ensure_correct_folder_name] at hne ⊢
    by_cases hn : is_name_maybe_with_suffix folderName (sanitize artist_title) = true
    · rw [if_pos hn] at hne
      exact absurd rfl hne
    · rw [if_neg hn]
      exact h2

/-- C5 witness: a song renamed from stem X - Y to stem X - Z has its folder
renamed to the untaken directory X - Z. -/
theorem c5_witness :
    (locations_new_folder [⟨"X - Y", none⟩] id "X - Z" none).stem = "X - Z"
    ∧ locations_new_folder [⟨"X - Y", none⟩] id "X - Z" none ∉ [⟨"X - Y", none⟩]
    ∧ (ensure_correct_folder_name [⟨"X - Y", none⟩] ⟨"X - Y", none⟩ "X - Z").stem
        = "X - Z"
    ∧ ensure_correct_folder_name [⟨"X - Y", none⟩] ⟨"X - Y", none⟩ "X - Z"
        ∉ [⟨"X - Y", none⟩] :=
  ⟨(c5_folder_invariant [⟨"X - Y", none⟩] ⟨"X - Y", none⟩ id "X - Z").1,
   (c5_folder_invariant [⟨"X - Y", none⟩] ⟨"X - Y", none⟩ id "X - Z").2.1,
   (c5_folder_invariant [⟨"X - Y", none⟩] ⟨"X - Y", none⟩ id "X - Z").2.2.1,
   (c5_folder_invariant [⟨"X - Y", none⟩] ⟨"X - Y", none⟩ id "X - Z").2.2.2
     (by decide)⟩

/-! Lemmas about the commit stage on the explicit file system. -/

/-- Replacement behaviour of the one-slot commit stage, for an abstract old
path (in the folder) and staged path (in the temporary directory): the old
file is trashed exactly once, and the staged file ends up at its name inside
the final folder. -/
theorem commit_slot_replace (loc : Locations) (o : ResourceFile) (res : String)
    (op np : FPath) (oldId newId : Nat) (fs0 : FPath → Option Nat)
    (needRename : Bool) (newFolder : String)
    (h_old : fs0 op = some oldId)
    (h_new : fs0 np = some newId)
    (h_unique : ∀ q, q ≠ op → fs0 q ≠ some oldId)
    (h_op_dir : op.dir = loc.folder)
    (h_np_dir : np.dir = loc.tempdir)
    (h_np_name : np.name ≠ "")
    (h_tf : loc.tempdir ≠ loc.folder)
    (h_tn : loc.tempdir ≠ newFolder) :
    ((commit_slot loc (some o) ⟨some op, some np, some res⟩ needRename newFolder
        ⟨fs0, []⟩).2.2.trash.count oldId = 1)
    ∧ (commit_slot loc (some o) ⟨some op, some np, some res⟩ needRename newFolder
        ⟨fs0, []⟩).2.2.fs
        ⟨if needRename then newFolder else loc.folder, np.name⟩ = some newId := by
  have hnop : np ≠ op := by
    intro h
    rw [h] at h_np_dir
    exact h_tf (h_np_dir.symm.trans h_op_dir)
  have hcl : cleanup_slot loc (some o) ⟨some op, some np, some res⟩ ⟨fs0, []⟩
      = (⟨some op, some np, some res⟩,
         ⟨fun q => if q = op then none else fs0 q, [oldId]⟩) := by
    simp [cleanup_slot, FsT.send2trash, h_old]
  cases needRename with
  | false =>
      have dfn : (⟨loc.folder, np.name⟩ : FPath) ≠ np := by
        intro h
        rw [← h] at h_np_dir
        exact h_tf h_np_dir.symm
      simp only [commit_slot, hcl, ensure_folder_fs, Bool.false_eq_true,
        if_false, persist_slot, Locations.file_path, if_neg h_np_name,
        FsT.send2trash, FsT.renameFile]
      by_cases hto : (⟨loc.folder, np.name⟩ : FPath) = op
      · simp [hto, hnop, h_new, dfn]
      · cases hocc : fs0 ⟨loc.folder, np.name⟩ with
        | none => simp [hto, hocc, hnop, h_new, dfn]
        | some occ =>
            have hocc2 : occ ≠ oldId := by
              intro h
              rw [h] at hocc
              exact h_unique _ hto hocc
            simp [hto, hocc, hnop, h_new, dfn, Ne.symm dfn, List.count_cons,
              hocc2]
  | true =>
      have dfn : (⟨newFolder, np.name⟩ : FPath) ≠ np := by
        intro h
        rw [← h] at h_np_dir
        exact h_tn h_np_dir.symm
      simp only [commit_slot, hcl, ensure_folder_fs, if_true,
        persist_slot, Locations.file_path, if_neg h_np_name,
        FsT.send2trash, FsT.renameFile, FsT.renameDir]
      by_cases hto : (⟨loc.folder, np.name⟩ : FPath) = op
      · simp [hto, hnop, h_new, dfn, h_tf, h_tn, h_np_dir]
      · cases hocc : fs0 ⟨loc.folder, np.name⟩ with
        | none => simp [hto, hocc, hnop, h_new, dfn, h_tf, h_tn, h_np_dir]
        | some occ =>
            have hocc2 : occ ≠ oldId := by
              intro h
              rw [h] at hocc
              exact h_unique _ hto hocc
            simp [hto, hocc, hnop, h_new, dfn, Ne.symm dfn, h_tf, h_tn,
              h_np_dir, List.count_cons, hocc2]

/-- C3: for a slot whose prior record holds an old file (seeded, old path in
the folder) and for which a new file was staged during the run (staged path
in the temporary directory, changed resource), the commit stage trashes the
old file exactly once, and afterwards the new file occupies the canonical
filename — stem plus resource extension — inside the final folder, whether
or not the folder itself was renamed. -/
theorem c3_replace_on_change (loc : Locations) (o : ResourceFile)
    (res ext : String) (oldId newId : Nat) (fs0 : FPath → Option Nat)
    (needRename : Bool) (newFolder : String)
    (h_ext : ext ≠ "")
    (h_old : fs0 (loc.file_path o.fname "") = some oldId)
    (h_new : fs0 (loc.temp_path "" ext) = some newId)
    (h_unique : ∀ q, q ≠ loc.file_path o.fname "" → fs0 q ≠ some oldId)
    (h_tf : loc.tempdir ≠ loc.folder)
    (h_tn : loc.tempdir ≠ newFolder) :
    ((commit_slot loc (some o)
        ⟨some (loc.file_path o.fname ""), some (loc.temp_path "" ext), some res⟩
        needRename newFolder ⟨fs0, []⟩).2.2.trash.count oldId = 1)
    ∧ (commit_slot loc (some o)
        ⟨some (loc.file_path o.fname ""), some (loc.temp_path "" ext), some res⟩
        needRename newFolder ⟨fs0, []⟩).2.2.fs
        ⟨if needRename then newFolder else loc.folder,
          loc.filename_stem ++ "." ++ ext⟩ = some newId := by
  have hnp : loc.temp_path "" ext
      = ⟨loc.tempdir, loc.filename_stem ++ "." ++ ext⟩ := by
    simp [Locations.temp_path, h_ext]
  have hname : loc.filename_stem ++ "." ++ ext ≠ "" := by
    intro h
    have h2 := congrArg String.length h
    simp [String.length_append] at h2
    exact absurd h2.1.2 (by decide)
  rw [hnp] at h_new ⊢
  exact commit_slot_replace loc o res (loc.file_path o.fname "")
    ⟨loc.tempdir, loc.filename_stem ++ "." ++ ext⟩ oldId newId fs0 needRename
    newFolder h_old h_new h_unique rfl rfl hname h_tf h_tn

/-- C3 witness: concrete folder, old file Song.mp3 with identity 1, staged
temp file with identity 2 replacing resource urlA by urlB, no folder rename. -/
theorem c3_witness :
    ((commit_slot locW (some priorW)
        ⟨some (locW.file_path "Song.mp3" ""), some (locW.temp_path "" "mp3"),
          some "urlB"⟩ false "library/Other" ⟨fsW, []⟩).2.2.trash.count 1 = 1)
    ∧ (commit_slot locW (some priorW)
        ⟨some (locW.file_path "Song.mp3" ""), some (locW.temp_path "" "mp3"),
          some "urlB"⟩ false "library/Other" ⟨fsW, []⟩).2.2.fs
        ⟨if false then "library/Other" else locW.folder,
          locW.filename_stem ++ "." ++ "mp3"⟩ = some 2 :=
  c3_replace_on_change locW priorW "urlB" "mp3" 1 2 fsW false "library/Other"
    (by decide) (by decide) (by decide)
    (fun q hq => by
      have hq2 : q ≠ pOldW := fun h => hq (h.trans (by decide))
      simp only [fsW, if_neg hq2]
      split <;> simp)
    (by decide) (by decide)

end UsdbSyncer
